import Mathlib

/-!
Shallow embedding of `jeroenvervaeke/authorized_client` (src/src/authorized_client.rs).

The repository implements an OAuth2 client-credentials HTTP client: a shared
`Credentials` record (access token + absolute expiry instant) behind an RwLock,
a token fetcher (`get_bearer_token`), a double-checked expiry refresh
(`ensure_authenticated`), an unconditional refresh (`force_refresh_authentication`,
used after a 401), and a bounded retry loop (`request`).

Embedding choices:
* `Instant` is a natural number; `Instant::checked_add` is modelled with an
  explicit upper bound `maxInstant` on representable instants (addition
  overflows exactly when the sum exceeds the bound).
* The OAuth2 exchange (`exchange_request.request_async`) is an oracle: either a
  transport/protocol failure or a `TokenResponse` carrying the access token and
  the optional `expires_in` duration.
* The retry loop of `AuthorizedClient::request` is executed against oracles
  `respOf : Nat → Nat` (HTTP status of the n-th send attempt) and
  `fetchOf : Nat → Except FetchError Credentials` (result of the n-th token
  exchange issued by this logical request), producing an observable event trace
  (send attempts with their Authorization header, backoff sleeps, token
  fetches).  Request building, header parsing, transport and the caller-supplied
  response extractor are assumed to succeed: the claims under study only
  concern the status-code dispatch, retry/backoff and token-refresh logic.
* Lock acquisition is modelled by explicit interleaving parameters: the record
  and clock observed at the read-lock check may differ from those observed
  after the write lock is acquired (another task may have refreshed in
  between, and time advances).
-/

/-- `Credentials` (authorized_client.rs lines 311-315): the current bearer
token together with the absolute instant at which it expires. -/
structure Credentials where
  access_token : String
  expires_at : Nat
deriving Repr, DecidableEq

/-- The failure modes of a token fetch (`get_bearer_token`): transport or
protocol failure of the exchange itself, a token response without
`expires_in`, or overflow of `Instant::checked_add`. -/
inductive FetchError where
  | exchangeFailed
  | missingExpiry
  | expiryOverflow
deriving Repr, DecidableEq

/-- The part of the OAuth2 token response read by `get_bearer_token`:
`access_token().secret()` and the optional `expires_in()` duration. -/
structure TokenResponse where
  access_token : String
  expires_in : Option Nat
deriving Repr, DecidableEq

/-- `Instant::checked_add` (line 82): instants are bounded by `maxInstant`;
adding a duration returns `none` exactly when the result is not
representable. -/
def instantCheckedAdd (maxInstant now d : Nat) : Option Nat :=
  if now + d ≤ maxInstant then some (now + d) else none

/-- `AuthorizedClient::get_bearer_token` (lines 54-95), with the network
exchange abstracted to its result.  On a successful exchange it computes
`expires_at = now + ttl` via `checked_add`; a missing `expires_in` and an
overflowing addition are errors (propagated by `?` through the two `context`
calls), and only otherwise is a `Credentials` value built. -/
def get_bearer_token (maxInstant now : Nat)
    (exchange : Except Unit TokenResponse) : Except FetchError Credentials :=
  match exchange with
  | .error _ => .error .exchangeFailed
  | .ok response =>
    match response.expires_in with
    | none => .error .missingExpiry
    | some ttl =>
      match instantCheckedAdd maxInstant now ttl with
      | none => .error .expiryOverflow
      | some expires_at =>
        .ok { access_token := response.access_token, expires_at := expires_at }

/-- Observable events of a run: a token exchange issued against the
authorization server, a send attempt against the protected endpoint carrying
its `Authorization` header value, and a backoff sleep of the given number of
milliseconds. -/
inductive Event where
  | fetchTok
  | send (auth : String)
  | sleepMs (ms : Nat)
deriving Repr, DecidableEq

/-- Is this event a send attempt? -/
def isSendEv : Event → Bool
  | Event.send _ => true
  | _ => false

/-- Is this event a backoff sleep? -/
def isSleepEv : Event → Bool
  | Event.sleepMs _ => true
  | _ => false

/-- Number of token exchanges in a trace. -/
def fetchCount (evs : List Event) : Nat :=
  evs.countP fun e => e = Event.fetchTok

/-- Number of send attempts in a trace. -/
def sendCount (evs : List Event) : Nat :=
  evs.countP isSendEv

/-- Number of backoff sleeps in a trace. -/
def sleepCount (evs : List Event) : Nat :=
  evs.countP isSleepEv

/-- `AuthorizedClient::refresh_authentication` (lines 189-201), holding the
write lock: performs the token fetch first and writes the record's two fields
only after the fetch succeeded (`?` on line 194 returns before any mutation).
Returns the record state after the call, the events, and the error if any. -/
def refresh_authentication (store : Credentials)
    (fetch : Except FetchError Credentials) :
    Credentials × List Event × Option FetchError :=
  match fetch with
  | .error e => (store, [Event.fetchTok], some e)
  | .ok result =>
    ({ store with expires_at := result.expires_at,
                  access_token := result.access_token },
      [Event.fetchTok], none)

/-- `AuthorizedClient::force_refresh_authentication` (lines 182-186): acquire
the write lock and refresh unconditionally — no expiry check of any kind. -/
def force_refresh_authentication (store : Credentials)
    (fetch : Except FetchError Credentials) :
    Credentials × List Event × Option FetchError :=
  refresh_authentication store fetch

/-- The write-locked section of `AuthorizedClient::ensure_authenticated`
(lines 169-175): holding the write lock, re-check expiry against the current
clock and refresh only if the record is still expired. -/
def ensureWriteSection (storeW : Credentials) (now2 : Nat)
    (fetch : Except FetchError Credentials) :
    Credentials × List Event × Option FetchError :=
  if storeW.expires_at < now2 then
    refresh_authentication storeW fetch
  else (storeW, [], none)

/-- `AuthorizedClient::ensure_authenticated` (lines 162-179).  `store`/`now1`
are the record and clock observed under the read lock (line 165);
`storeW`/`now2` are the record and clock observed after the write lock is
acquired (line 172) — they may differ from the first pair because another
task may have refreshed the record while this one waited for the write lock.
Only if both checks see an expired record is `refresh_authentication`
called. -/
def ensure_authenticated (store : Credentials) (now1 : Nat)
    (storeW : Credentials) (now2 : Nat)
    (fetch : Except FetchError Credentials) :
    Credentials × List Event × Option FetchError :=
  if store.expires_at < now1 then
    ensureWriteSection storeW now2 fetch
  else (store, [], none)

/-- `MAX_RETRY_COUNT` (line 27). -/
def MAX_RETRY_COUNT : Nat := 3

/-- How a logical request ends (the four exit points of
`AuthorizedClient::request`): the 200 branch (line 243), a propagated
token-fetch failure (lines 219 and 265), the retry-exhaustion `bail!`
(lines 246-251) and the unsupported-status `bail!` (lines 267-269).
`outOfFuel` is an artifact of the fuelled loop; it is proved unreachable. -/
inductive ReqOutcome where
  | success
  | fetchFailed (e : FetchError)
  | authExhausted (retries : Nat)
  | unsupportedStatus (code : Nat)
  | outOfFuel
deriving Repr, DecidableEq

/-- Result of running (part of) a logical request: final record state,
observable events in order, outcome. -/
structure LoopResult where
  store : Credentials
  events : List Event
  outcome : ReqOutcome
deriving Repr, DecidableEq

/-- The `loop` of `AuthorizedClient::request` (lines 225-271), fuelled.
Each iteration reads the access token from the store immediately before
sending (line 233), sends (status given by `respOf` at the current send
index), and dispatches on the status code: 200 returns success, 401 either
bails when `retries == MAX_RETRY_COUNT` or increments the counter, sleeps
`500ms * counter` when the counter exceeds 1, and force-refreshes before
looping; any other status bails immediately. -/
def requestLoop (respOf : Nat → Nat)
    (fetchOf : Nat → Except FetchError Credentials) :
    Nat → Credentials → Nat → Nat → Nat → LoopResult
  | 0, store, _, _, _ => ⟨store, [], ReqOutcome.outOfFuel⟩
  | fuel + 1, store, sendIdx, fetchIdx, retries =>
    let auth := "Bearer " ++ store.access_token
    let status := respOf sendIdx
    if status = 200 then
      ⟨store, [Event.send auth], ReqOutcome.success⟩
    else if status = 401 then
      if retries = MAX_RETRY_COUNT then
        ⟨store, [Event.send auth], ReqOutcome.authExhausted MAX_RETRY_COUNT⟩
      else
        let retries' := retries + 1
        let sleepEvs : List Event :=
          if retries' > 1 then [Event.sleepMs (500 * retries')] else []
        match force_refresh_authentication store (fetchOf fetchIdx) with
        | (store', fevs, some e) =>
          ⟨store', Event.send auth :: (sleepEvs ++ fevs), ReqOutcome.fetchFailed e⟩
        | (store', fevs, none) =>
          let r := requestLoop respOf fetchOf fuel store' (sendIdx + 1)
            (fetchIdx + 1) retries'
          ⟨r.store, Event.send auth :: (sleepEvs ++ fevs ++ r.events), r.outcome⟩
    else
      ⟨store, [Event.send auth], ReqOutcome.unsupportedStatus status⟩

/-- `AuthorizedClient::request` (lines 209-272) for one logical request run
without interference: first `ensure_authenticated` (line 219; both checks see
the same record and clock since no other task runs in between), whose failure
propagates immediately, then the retry loop with the counter starting at 0.
Fuel `MAX_RETRY_COUNT + 1` covers every reachable iteration. -/
def request (respOf : Nat → Nat)
    (fetchOf : Nat → Except FetchError Credentials)
    (store0 : Credentials) (now : Nat) : LoopResult :=
  match ensure_authenticated store0 now store0 now (fetchOf 0) with
  | (store1, evs, some e) => ⟨store1, evs, ReqOutcome.fetchFailed e⟩
  | (store1, evs, none) =>
    let r := requestLoop respOf fetchOf (MAX_RETRY_COUNT + 1) store1 0
      (fetchCount evs) 0
    ⟨r.store, evs ++ r.events, r.outcome⟩

/-- `true` iff every backoff sleep in the trace is immediately followed by a
token exchange (the sleep of lines 258-262 happens right before the
`force_refresh_authentication` of line 265). -/
def sleepThenFetch : List Event → Bool
  | [] => true
  | Event.sleepMs _ :: rest =>
    match rest with
    | Event.fetchTok :: _ => sleepThenFetch rest
    | _ => false
  | _ :: rest => sleepThenFetch rest

/-- The backoff sleeps a retry loop entered with counter value `r` can still
emit, in order, if every remaining attempt receives a 401: the wait before
the k-th retry is `500ms * k`, skipped for `k = 1` (lines 258-262), and no
wait is emitted once the counter has reached `MAX_RETRY_COUNT`. -/
def backoffWaits : Nat → List Event
  | 0 => [Event.sleepMs 1000, Event.sleepMs 1500]
  | 1 => [Event.sleepMs 1000, Event.sleepMs 1500]
  | 2 => [Event.sleepMs 1500]
  | _ => []

/-- N concurrent callers of `ensure_authenticated` that all observed an
expired record under the read lock, serialized by the write lock in the order
they acquire it: caller after caller runs the write-locked section
(`ensureWriteSection`) against the store state left by its predecessors, at
the instant its own re-check happens.  Returns the final store state and the
total number of token exchanges issued. -/
def writersPass (fetchOf : Nat → Except FetchError Credentials) :
    List Nat → Credentials → Nat → Credentials × Nat
  | [], store, _ => (store, 0)
  | now :: rest, store, fIdx =>
    let s := ensureWriteSection store now (fetchOf fIdx)
    let n := fetchCount s.2.1
    let r := writersPass fetchOf rest s.1 (fIdx + n)
    (r.1, n + r.2)

/-! ## General lemmas about the retry loop -/

/-- Full trace of the retry loop (fuel 4, counter 0) when every attempt
receives a 401 and the three token fetches it issues succeed. -/
theorem requestLoop_always401 (respOf : Nat → Nat)
    (fetchOf : Nat → Except FetchError Credentials)
    (h401 : ∀ n, respOf n = 401)
    (i : Nat) (c0 c1 c2 : Credentials)
    (hf0 : fetchOf i = Except.ok c0) (hf1 : fetchOf (i + 1) = Except.ok c1)
    (hf2 : fetchOf (i + 2) = Except.ok c2)
    (store : Credentials) (sendIdx : Nat) :
    requestLoop respOf fetchOf 4 store sendIdx i 0 =
      ⟨⟨c2.access_token, c2.expires_at⟩,
       [Event.send ("Bearer " ++ store.access_token), Event.fetchTok,
        Event.send ("Bearer " ++ c0.access_token), Event.sleepMs 1000,
        Event.fetchTok,
        Event.send ("Bearer " ++ c1.access_token), Event.sleepMs 1500,
        Event.fetchTok,
        Event.send ("Bearer " ++ c2.access_token)],
       ReqOutcome.authExhausted 3⟩ := by
  simp [requestLoop, h401, hf0, hf1, hf2, force_refresh_authentication,
    refresh_authentication, MAX_RETRY_COUNT]


/-- The backoff sleeps any partial run of the retry loop emits form a prefix
of the schedule `backoffWaits r` determined by the counter it starts from. -/
theorem requestLoop_sleeps_prefix (respOf : Nat → Nat)
    (fetchOf : Nat → Except FetchError Credentials) :
    ∀ (fuel : Nat) (store : Credentials) (s i r : Nat),
      r ≤ MAX_RETRY_COUNT →
      ((requestLoop respOf fetchOf fuel store s i r).events.filter isSleepEv)
        <+: backoffWaits r := by
  intro fuel
  induction fuel with
  | zero => intro store s i r _; simp [requestLoop]
  | succ fuel ih =>
    intro store s i r hr
    by_cases h200 : respOf s = 200
    · simp [requestLoop, h200, isSleepEv]
    · by_cases h401 : respOf s = 401
      · by_cases hmax : r = MAX_RETRY_COUNT
        · simp [requestLoop, h200, h401, hmax, isSleepEv]
        · have hr' : r = 0 ∨ r = 1 ∨ r = 2 := by
            simp [MAX_RETRY_COUNT] at hr hmax; omega
          cases hf : fetchOf i with
          | error e =>
            rcases hr' with h | h | h <;>
              simp [requestLoop, h200, h401, hmax, hf, h,
                force_refresh_authentication, refresh_authentication,
                isSleepEv, backoffWaits, MAX_RETRY_COUNT]
          | ok c =>
            rcases hr' with h | h | h
            · subst h
              have h2 := ih ⟨c.access_token, c.expires_at⟩ (s + 1) (i + 1) 1
                (by simp [MAX_RETRY_COUNT])
              simp only [backoffWaits] at h2
              simp [requestLoop, h200, h401, hmax, hf,
                force_refresh_authentication, refresh_authentication,
                isSleepEv, MAX_RETRY_COUNT, backoffWaits]
              exact h2
            · subst h
              have h2 := ih ⟨c.access_token, c.expires_at⟩ (s + 1) (i + 1) 2
                (by simp [MAX_RETRY_COUNT])
              simp only [backoffWaits] at h2
              simp [requestLoop, h200, h401, hmax, hf,
                force_refresh_authentication, refresh_authentication,
                isSleepEv, MAX_RETRY_COUNT, backoffWaits,
                List.cons_prefix_cons]
              exact h2
            · subst h
              have h2 := ih ⟨c.access_token, c.expires_at⟩ (s + 1) (i + 1) 3
                (by simp [MAX_RETRY_COUNT])
              simp only [backoffWaits] at h2
              simp [requestLoop, h200, h401, hmax, hf,
                force_refresh_authentication, refresh_authentication,
                isSleepEv, MAX_RETRY_COUNT, backoffWaits,
                List.cons_prefix_cons]
              simpa using h2
      · simp [requestLoop, h200, h401, isSleepEv]

/-- In any partial run of the retry loop, every backoff sleep is immediately
followed by a token exchange. -/
theorem requestLoop_sleepThenFetch (respOf : Nat → Nat)
    (fetchOf : Nat → Except FetchError Credentials) :
    ∀ (fuel : Nat) (store : Credentials) (s i r : Nat),
      sleepThenFetch (requestLoop respOf fetchOf fuel store s i r).events =
        true := by
  intro fuel
  induction fuel with
  | zero => intro store s i r; simp [requestLoop, sleepThenFetch]
  | succ fuel ih =>
    intro store s i r
    by_cases h200 : respOf s = 200
    · simp [requestLoop, h200, sleepThenFetch]
    · by_cases h401 : respOf s = 401
      · by_cases hmax : r = MAX_RETRY_COUNT
        · simp [requestLoop, h200, h401, hmax, sleepThenFetch]
        · cases hf : fetchOf i with
          | error e =>
            cases r with
            | zero =>
              simp [requestLoop, h200, h401, hmax, hf,
                force_refresh_authentication, refresh_authentication,
                sleepThenFetch]
            | succ r =>
              simp [requestLoop, h200, h401, hmax, hf,
                force_refresh_authentication, refresh_authentication,
                sleepThenFetch]
          | ok c =>
            cases r with
            | zero =>
              have h2 := ih ⟨c.access_token, c.expires_at⟩ (s + 1) (i + 1) 1
              simp [requestLoop, h200, h401, hmax, hf,
                force_refresh_authentication, refresh_authentication,
                sleepThenFetch, h2]
            | succ r =>
              have h2 := ih ⟨c.access_token, c.expires_at⟩ (s + 1) (i + 1)
                (r + 2)
              simp [requestLoop, h200, h401, hmax, hf,
                force_refresh_authentication, refresh_authentication,
                sleepThenFetch, h2]
      · simp [requestLoop, h200, h401, sleepThenFetch]

/-- `ensure_authenticated` emits either no event or exactly one token
exchange. -/
theorem ensure_events_cases (store : Credentials) (now1 : Nat)
    (storeW : Credentials) (now2 : Nat)
    (fetch : Except FetchError Credentials) :
    (ensure_authenticated store now1 storeW now2 fetch).2.1 = [] ∨
      (ensure_authenticated store now1 storeW now2 fetch).2.1 =
        [Event.fetchTok] := by
  unfold ensure_authenticated ensureWriteSection refresh_authentication
  split
  · split
    · cases fetch <;> simp
    · simp
  · simp

/-- The backoff sleeps of any logical request form a prefix of
`[1000ms, 1500ms]`. -/
theorem request_sleeps_prefix (respOf : Nat → Nat)
    (fetchOf : Nat → Except FetchError Credentials)
    (store0 : Credentials) (now : Nat) :
    ((request respOf fetchOf store0 now).events.filter isSleepEv) <+:
      [Event.sleepMs 1000, Event.sleepMs 1500] := by
  have hevs := ensure_events_cases store0 now store0 now (fetchOf 0)
  rcases hens : ensure_authenticated store0 now store0 now (fetchOf 0) with
    ⟨s1, evs, err⟩
  rw [hens] at hevs
  simp only at hevs
  cases err with
  | some e =>
    simp only [request, hens]
    rcases hevs with h | h <;> subst h <;> simp [isSleepEv]
  | none =>
    have h0 := requestLoop_sleeps_prefix respOf fetchOf (MAX_RETRY_COUNT + 1)
      s1 0 (fetchCount evs) 0 (by simp [MAX_RETRY_COUNT])
    simp only [backoffWaits] at h0
    simp only [request, hens, List.filter_append]
    rcases hevs with h | h <;> subst h <;> simpa [isSleepEv] using h0

/-- In any logical request, every backoff sleep is immediately followed by a
token exchange. -/
theorem request_sleepThenFetch (respOf : Nat → Nat)
    (fetchOf : Nat → Except FetchError Credentials)
    (store0 : Credentials) (now : Nat) :
    sleepThenFetch (request respOf fetchOf store0 now).events = true := by
  have hevs := ensure_events_cases store0 now store0 now (fetchOf 0)
  rcases hens : ensure_authenticated store0 now store0 now (fetchOf 0) with
    ⟨s1, evs, err⟩
  rw [hens] at hevs
  simp only at hevs
  cases err with
  | some e =>
    simp only [request, hens]
    rcases hevs with h | h <;> subst h <;> simp [sleepThenFetch]
  | none =>
    have h0 := requestLoop_sleepThenFetch respOf fetchOf (MAX_RETRY_COUNT + 1)
      s1 0 (fetchCount evs) 0
    simp only [request, hens]
    rcases hevs with h | h <;> subst h <;> simp [sleepThenFetch, h0]

/-! ## Claim theorems -/

/-- C1: for every logical request whose protected endpoint returns 401 on
every attempt (and whose token fetches succeed), exactly
`1 + MAX_RETRY_COUNT = 4` send attempts occur, the request fails with the
retry-exhaustion error (`AuthExhausted`, the `bail!` of lines 246-251), and
the trace ends at the 4th send: no 5th send attempt and no further token
fetch occur after exhaustion. -/
theorem retry_ceiling_auth_exhausted (respOf : Nat → Nat)
    (fetchOf : Nat → Except FetchError Credentials)
    (store0 : Credentials) (now : Nat)
    (h401 : ∀ n, respOf n = 401)
    (hok : ∀ k, ∃ c, fetchOf k = Except.ok c) :
    (request respOf fetchOf store0 now).outcome =
        ReqOutcome.authExhausted MAX_RETRY_COUNT ∧
      sendCount (request respOf fetchOf store0 now).events =
        1 + MAX_RETRY_COUNT ∧
      (∃ a, (request respOf fetchOf store0 now).events.getLast? =
        some (Event.send a)) := by
  by_cases hexp : store0.expires_at < now
  · obtain ⟨c0, hc0⟩ := hok 0
    obtain ⟨c1, hc1⟩ := hok 1
    obtain ⟨c2, hc2⟩ := hok 2
    obtain ⟨c3, hc3⟩ := hok 3
    simp [request, ensure_authenticated, ensureWriteSection, hexp,
      refresh_authentication, hc0, fetchCount,
      requestLoop_always401 respOf fetchOf h401 1 c1 c2 c3 hc1 hc2 hc3,
      sendCount, isSendEv, MAX_RETRY_COUNT]
  · obtain ⟨c0, hc0⟩ := hok 0
    obtain ⟨c1, hc1⟩ := hok 1
    obtain ⟨c2, hc2⟩ := hok 2
    simp [request, ensure_authenticated, ensureWriteSection, hexp, fetchCount,
      requestLoop_always401 respOf fetchOf h401 0 c0 c1 c2 hc0 hc1 hc2,
      sendCount, isSendEv, MAX_RETRY_COUNT]

/-- Witness for C1 at a concrete endpoint that always answers 401. -/
theorem retry_ceiling_auth_exhausted_witness :
    (request (fun _ => 401) (fun k => Except.ok ⟨"T", k⟩) ⟨"T0", 5⟩ 10).outcome =
        ReqOutcome.authExhausted MAX_RETRY_COUNT ∧
      sendCount (request (fun _ => 401) (fun k => Except.ok ⟨"T", k⟩)
          ⟨"T0", 5⟩ 10).events = 1 + MAX_RETRY_COUNT ∧
      (∃ a, (request (fun _ => 401) (fun k => Except.ok ⟨"T", k⟩)
          ⟨"T0", 5⟩ 10).events.getLast? = some (Event.send a)) :=
  retry_ceiling_auth_exhausted (fun _ => 401) (fun k => Except.ok ⟨"T", k⟩)
    ⟨"T0", 5⟩ 10 (fun _ => rfl) (fun k => ⟨⟨"T", k⟩, rfl⟩)

/-- C3: the wait inserted before unauthorized retry k is 0ms for k = 1 and
`500ms * k` (1000ms, 1500ms) for k = 2, 3 — in a request whose attempts all
receive 401 the emitted sleeps are exactly `[500*2, 500*3]` milliseconds, in
that order; every sleep happens immediately before the force-refresh of
credentials; and in any logical request whatsoever the sleeps form a prefix
of that schedule. -/
theorem backoff_schedule (respOf : Nat → Nat)
    (fetchOf : Nat → Except FetchError Credentials)
    (store0 : Credentials) (now : Nat)
    (h401 : ∀ n, respOf n = 401)
    (hok : ∀ k, ∃ c, fetchOf k = Except.ok c) :
    ((request respOf fetchOf store0 now).events.filter isSleepEv) =
        [Event.sleepMs (500 * 2), Event.sleepMs (500 * 3)] ∧
      sleepThenFetch (request respOf fetchOf store0 now).events = true ∧
      (∀ (respOf2 : Nat → Nat)
          (fetchOf2 : Nat → Except FetchError Credentials)
          (store2 : Credentials) (now2 : Nat),
        ((request respOf2 fetchOf2 store2 now2).events.filter isSleepEv) <+:
          [Event.sleepMs (500 * 2), Event.sleepMs (500 * 3)]) := by
  refine ⟨?_, request_sleepThenFetch respOf fetchOf store0 now,
    fun respOf2 fetchOf2 store2 now2 => by
      simpa using request_sleeps_prefix respOf2 fetchOf2 store2 now2⟩
  by_cases hexp : store0.expires_at < now
  · obtain ⟨c0, hc0⟩ := hok 0
    obtain ⟨c1, hc1⟩ := hok 1
    obtain ⟨c2, hc2⟩ := hok 2
    obtain ⟨c3, hc3⟩ := hok 3
    simp [request, ensure_authenticated, ensureWriteSection, hexp,
      refresh_authentication, hc0, fetchCount,
      requestLoop_always401 respOf fetchOf h401 1 c1 c2 c3 hc1 hc2 hc3,
      isSleepEv, MAX_RETRY_COUNT]
  · obtain ⟨c0, hc0⟩ := hok 0
    obtain ⟨c1, hc1⟩ := hok 1
    obtain ⟨c2, hc2⟩ := hok 2
    simp [request, ensure_authenticated, ensureWriteSection, hexp, fetchCount,
      requestLoop_always401 respOf fetchOf h401 0 c0 c1 c2 hc0 hc1 hc2,
      isSleepEv, MAX_RETRY_COUNT]

/-- Witness for C3 at a concrete endpoint that always answers 401. -/
theorem backoff_schedule_witness :
    ((request (fun _ => 401) (fun k => Except.ok ⟨"T", k⟩)
          ⟨"T0", 5⟩ 10).events.filter isSleepEv) =
        [Event.sleepMs (500 * 2), Event.sleepMs (500 * 3)] ∧
      sleepThenFetch (request (fun _ => 401) (fun k => Except.ok ⟨"T", k⟩)
          ⟨"T0", 5⟩ 10).events = true ∧
      (∀ (respOf2 : Nat → Nat)
          (fetchOf2 : Nat → Except FetchError Credentials)
          (store2 : Credentials) (now2 : Nat),
        ((request respOf2 fetchOf2 store2 now2).events.filter isSleepEv) <+:
          [Event.sleepMs (500 * 2), Event.sleepMs (500 * 3)]) :=
  backoff_schedule (fun _ => 401) (fun k => Except.ok ⟨"T", k⟩)
    ⟨"T0", 5⟩ 10 (fun _ => rfl) (fun k => ⟨⟨"T", k⟩, rfl⟩)

/-- C5: a response whose status code is neither 200 nor 401 — e.g. 500 on
the first attempt — makes the request fail immediately with the
unsupported-status error carrying that code (the `bail!` of lines 267-269):
one single send attempt, zero retries, zero backoff sleeps, and the trace
ends at that send (no further network activity).  The HTTP verb is
irrelevant: every public variant (`get`, `get_plain_text`, `post`,
`post_plain_text`, `post_ignore_response`) delegates to `request`, differing
only in the request template and response extractor, which this statement
quantifies away. -/
theorem immediate_hard_failure (respOf : Nat → Nat)
    (fetchOf : Nat → Except FetchError Credentials)
    (store0 : Credentials) (now : Nat) (code : Nat)
    (hcode : respOf 0 = code) (h200 : code ≠ 200) (h401 : code ≠ 401)
    (hok : store0.expires_at < now → ∃ c, fetchOf 0 = Except.ok c) :
    (request respOf fetchOf store0 now).outcome =
        ReqOutcome.unsupportedStatus code ∧
      sendCount (request respOf fetchOf store0 now).events = 1 ∧
      sleepCount (request respOf fetchOf store0 now).events = 0 ∧
      (∃ a, (request respOf fetchOf store0 now).events.getLast? =
        some (Event.send a)) := by
  by_cases hexp : store0.expires_at < now
  · obtain ⟨c0, hc0⟩ := hok hexp
    simp [request, ensure_authenticated, ensureWriteSection, hexp,
      refresh_authentication, hc0, fetchCount, requestLoop, hcode, h200, h401,
      sendCount, sleepCount, isSendEv, isSleepEv, MAX_RETRY_COUNT]
  · simp [request, ensure_authenticated, ensureWriteSection, hexp, fetchCount,
      requestLoop, hcode, h200, h401,
      sendCount, sleepCount, isSendEv, isSleepEv, MAX_RETRY_COUNT]

/-- Witness for C5: a 500 on the first attempt of a request that starts with
an expired token. -/
theorem immediate_hard_failure_witness :
    (request (fun _ => 500) (fun k => Except.ok ⟨"T", k⟩)
          ⟨"T0", 5⟩ 10).outcome = ReqOutcome.unsupportedStatus 500 ∧
      sendCount (request (fun _ => 500) (fun k => Except.ok ⟨"T", k⟩)
          ⟨"T0", 5⟩ 10).events = 1 ∧
      sleepCount (request (fun _ => 500) (fun k => Except.ok ⟨"T", k⟩)
          ⟨"T0", 5⟩ 10).events = 0 ∧
      (∃ a, (request (fun _ => 500) (fun k => Except.ok ⟨"T", k⟩)
          ⟨"T0", 5⟩ 10).events.getLast? = some (Event.send a)) :=
  immediate_hard_failure (fun _ => 500) (fun k => Except.ok ⟨"T", k⟩)
    ⟨"T0", 5⟩ 10 500 rfl (by decide) (by decide)
    (fun _ => ⟨⟨"T", 0⟩, rfl⟩)

/-- C6: on each send attempt the Authorization header is
`"Bearer <t>"` with `<t>` the access token read from the credential store
immediately before that send (line 233) — in the always-401 run the k-th
retry's header carries exactly the token stored by the (k-1)-th
force-refresh, never a value cached from an earlier iteration; and
`force_refresh_authentication` issues the token fetch unconditionally (it
consults no clock and performs no expiry re-check), so the next attempt
carries the freshly stored token. -/
theorem fresh_bearer_header (respOf : Nat → Nat)
    (fetchOf : Nat → Except FetchError Credentials)
    (store0 : Credentials) (now : Nat)
    (hne : ¬ store0.expires_at < now)
    (h401 : ∀ n, respOf n = 401)
    (c0 c1 c2 : Credentials)
    (hf0 : fetchOf 0 = Except.ok c0) (hf1 : fetchOf 1 = Except.ok c1)
    (hf2 : fetchOf 2 = Except.ok c2) :
    (∀ (store : Credentials) (fetch : Except FetchError Credentials),
      (force_refresh_authentication store fetch).2.1 = [Event.fetchTok]) ∧
      (request respOf fetchOf store0 now).events =
        [Event.send ("Bearer " ++ store0.access_token), Event.fetchTok,
         Event.send ("Bearer " ++ c0.access_token), Event.sleepMs 1000,
         Event.fetchTok,
         Event.send ("Bearer " ++ c1.access_token), Event.sleepMs 1500,
         Event.fetchTok,
         Event.send ("Bearer " ++ c2.access_token)] := by
  constructor
  · intro store fetch
    cases fetch <;>
      simp [force_refresh_authentication, refresh_authentication]
  · simp [request, ensure_authenticated, ensureWriteSection, hne, fetchCount,
      requestLoop_always401 respOf fetchOf h401 0 c0 c1 c2 hf0 hf1 hf2,
      MAX_RETRY_COUNT]

/-- Witness for C6 at a concrete endpoint that always answers 401. -/
theorem fresh_bearer_header_witness :
    (∀ (store : Credentials) (fetch : Except FetchError Credentials),
      (force_refresh_authentication store fetch).2.1 = [Event.fetchTok]) ∧
      (request (fun _ => 401) (fun k => Except.ok ⟨"T" ++ toString k, 9⟩)
          ⟨"T0", 50⟩ 10).events =
        [Event.send ("Bearer " ++ "T0"), Event.fetchTok,
         Event.send ("Bearer " ++ "T0"), Event.sleepMs 1000,
         Event.fetchTok,
         Event.send ("Bearer " ++ "T1"), Event.sleepMs 1500,
         Event.fetchTok,
         Event.send ("Bearer " ++ "T2")] :=
  fresh_bearer_header (fun _ => 401)
    (fun k => Except.ok ⟨"T" ++ toString k, 9⟩) ⟨"T0", 50⟩ 10
    (by decide) (fun _ => rfl) ⟨"T0", 9⟩ ⟨"T1", 9⟩ ⟨"T2", 9⟩ rfl rfl rfl

/-- Any partial run of the retry loop that ends in a propagated token-fetch
failure has a token exchange as its very last event: nothing is sent and no
sleep occurs after the failing fetch. -/
theorem requestLoop_fetchFailed_last (respOf : Nat → Nat)
    (fetchOf : Nat → Except FetchError Credentials) :
    ∀ (fuel : Nat) (store : Credentials) (s i r : Nat) (e : FetchError),
      (requestLoop respOf fetchOf fuel store s i r).outcome =
        ReqOutcome.fetchFailed e →
      (requestLoop respOf fetchOf fuel store s i r).events.getLast? =
        some Event.fetchTok := by
  intro fuel
  induction fuel with
  | zero => intro store s i r e h; simp [requestLoop] at h
  | succ fuel ih =>
    intro store s i r e h
    by_cases h200 : respOf s = 200
    · simp [requestLoop, h200] at h
    · by_cases h401 : respOf s = 401
      · by_cases hmax : r = MAX_RETRY_COUNT
        · simp [requestLoop, h200, h401, hmax] at h
        · cases hf : fetchOf i with
          | error e' =>
            cases r with
            | zero =>
              simp [requestLoop, h200, h401, hmax, hf,
                force_refresh_authentication, refresh_authentication] at h ⊢
            | succ r =>
              simp [requestLoop, h200, h401, hmax, hf,
                force_refresh_authentication, refresh_authentication] at h ⊢
          | ok c =>
            have hrec := ih ⟨c.access_token, c.expires_at⟩ (s + 1) (i + 1)
              (r + 1) e
            cases r with
            | zero =>
              simp [requestLoop, h200, h401, hmax, hf,
                force_refresh_authentication, refresh_authentication] at h ⊢
              have h2 := hrec h
              have hne : (requestLoop respOf fetchOf fuel
                  ⟨c.access_token, c.expires_at⟩ (s + 1) (i + 1) 1).events ≠
                  [] := by
                intro hnil
                rw [hnil] at h2
                simp at h2
              rw [← List.singleton_append, List.getLast?_append_of_ne_nil _ hne]
              exact h2
            | succ r =>
              simp [requestLoop, h200, h401, hmax, hf,
                force_refresh_authentication, refresh_authentication] at h ⊢
              have h2 := hrec h
              have hne : (requestLoop respOf fetchOf fuel
                  ⟨c.access_token, c.expires_at⟩ (s + 1) (i + 1)
                  (r + 2)).events ≠ [] := by
                intro hnil
                rw [hnil] at h2
                simp at h2
              rw [← List.singleton_append, List.getLast?_append_of_ne_nil _ hne]
              exact h2
      · simp [requestLoop, h200, h401] at h

/-- A failing `ensure_authenticated` emitted exactly the one failing token
exchange. -/
theorem ensure_error_events (store : Credentials) (now1 : Nat)
    (storeW : Credentials) (now2 : Nat)
    (fetch : Except FetchError Credentials) (e : FetchError)
    (h : (ensure_authenticated store now1 storeW now2 fetch).2.2 = some e) :
    (ensure_authenticated store now1 storeW now2 fetch).2.1 =
      [Event.fetchTok] := by
  unfold ensure_authenticated ensureWriteSection refresh_authentication at h ⊢
  split at h
  · split at h
    · cases fetch <;> simp_all
    · simp at h
  · simp at h

/-- C7: a token-fetch failure — during the initial `ensure_authenticated`
(line 219) as much as during a `force_refresh_authentication` after a 401
(line 265) — propagates immediately as the request's error: whenever a
request ends with a propagated fetch error its trace ends at the failing
exchange (the fetch is never retried and no further send attempt is made);
an ensure-time failure yields the error with zero sends, and a
force-refresh failure after the first 401 yields it after exactly the one
send already made. -/
theorem fetch_failure_propagates (respOf : Nat → Nat)
    (fetchOf : Nat → Except FetchError Credentials)
    (store0 : Credentials) (now : Nat) (e : FetchError) :
    ((request respOf fetchOf store0 now).outcome =
        ReqOutcome.fetchFailed e →
      (request respOf fetchOf store0 now).events.getLast? =
        some Event.fetchTok) ∧
      (store0.expires_at < now → fetchOf 0 = Except.error e →
        (request respOf fetchOf store0 now).outcome =
            ReqOutcome.fetchFailed e ∧
          sendCount (request respOf fetchOf store0 now).events = 0) ∧
      (¬ store0.expires_at < now → respOf 0 = 401 →
        fetchOf 0 = Except.error e →
        (request respOf fetchOf store0 now).outcome =
            ReqOutcome.fetchFailed e ∧
          sendCount (request respOf fetchOf store0 now).events = 1) := by
  refine ⟨?_, ?_, ?_⟩
  · intro h
    rcases hens : ensure_authenticated store0 now store0 now (fetchOf 0) with
      ⟨s1, evs, err⟩
    cases err with
    | some e' =>
      have hevs := ensure_error_events store0 now store0 now (fetchOf 0) e'
        (by rw [hens])
      rw [hens] at hevs
      simp only at hevs
      subst hevs
      simp [request, hens]
    | none =>
      rw [request] at h ⊢
      rw [hens] at h ⊢
      simp only at h ⊢
      have h2 := requestLoop_fetchFailed_last respOf fetchOf
        (MAX_RETRY_COUNT + 1) s1 0 (fetchCount evs) 0 e h
      have hne : (requestLoop respOf fetchOf (MAX_RETRY_COUNT + 1) s1 0
          (fetchCount evs) 0).events ≠ [] := by
        intro hnil
        rw [hnil] at h2
        simp at h2
      rw [List.getLast?_append_of_ne_nil _ hne]
      exact h2
  · intro hexp hf
    constructor <;>
      simp [request, ensure_authenticated, ensureWriteSection, hexp,
        refresh_authentication, hf, sendCount, isSendEv]
  · intro hexp h401 hf
    constructor <;>
      simp [request, ensure_authenticated, ensureWriteSection, hexp,
        fetchCount, requestLoop, h401, hf, force_refresh_authentication,
        refresh_authentication, MAX_RETRY_COUNT, sendCount, isSendEv]

/-- Witness for C7: a token endpoint that always fails, hit once from an
expired store (zero sends) and once after a first 401 (one send). -/
theorem fetch_failure_propagates_witness :
    ((request (fun _ => 401) (fun _ => Except.error FetchError.exchangeFailed)
          ⟨"T0", 5⟩ 10).outcome =
        ReqOutcome.fetchFailed FetchError.exchangeFailed ∧
      sendCount (request (fun _ => 401)
          (fun _ => Except.error FetchError.exchangeFailed)
          ⟨"T0", 5⟩ 10).events = 0) ∧
      ((request (fun _ => 401)
            (fun _ => Except.error FetchError.exchangeFailed)
            ⟨"T0", 50⟩ 10).outcome =
          ReqOutcome.fetchFailed FetchError.exchangeFailed ∧
        sendCount (request (fun _ => 401)
            (fun _ => Except.error FetchError.exchangeFailed)
            ⟨"T0", 50⟩ 10).events = 1) :=
  ⟨(fetch_failure_propagates (fun _ => 401)
      (fun _ => Except.error FetchError.exchangeFailed) ⟨"T0", 5⟩ 10
      FetchError.exchangeFailed).2.1 (by decide) rfl,
   (fetch_failure_propagates (fun _ => 401)
      (fun _ => Except.error FetchError.exchangeFailed) ⟨"T0", 50⟩ 10
      FetchError.exchangeFailed).2.2 (by decide) rfl rfl⟩

/-- C2: `ensure_authenticated` follows the double-checked pattern: a token
fetch is performed if and only if the stored `expires_at` is observed in the
past both under the shared read lock (line 165) and again, after acquiring
the write lock, under that exclusive access (line 172); if the first check
sees an unexpired record the call is a no-op, and if the re-check under the
write lock sees an unexpired record the fetch is skipped. -/
theorem double_checked_refresh (store : Credentials) (now1 : Nat)
    (storeW : Credentials) (now2 : Nat)
    (fetch : Except FetchError Credentials) :
    (fetchCount (ensure_authenticated store now1 storeW now2 fetch).2.1 = 1 ↔
        store.expires_at < now1 ∧ storeW.expires_at < now2) ∧
      (¬ store.expires_at < now1 →
        ensure_authenticated store now1 storeW now2 fetch =
          (store, [], none)) ∧
      (store.expires_at < now1 → ¬ storeW.expires_at < now2 →
        ensure_authenticated store now1 storeW now2 fetch =
          (storeW, [], none)) := by
  by_cases h1 : store.expires_at < now1 <;>
    by_cases h2 : storeW.expires_at < now2 <;>
    cases fetch <;>
    simp [ensure_authenticated, ensureWriteSection, refresh_authentication,
      h1, h2, fetchCount]

/-- Witness for C2: a record expired under both checks fetches once; a
record refreshed by a competitor while waiting for the write lock skips the
fetch. -/
theorem double_checked_refresh_witness :
    fetchCount (ensure_authenticated ⟨"t", 0⟩ 5 ⟨"t", 0⟩ 5
        (Except.ok ⟨"u", 9⟩)).2.1 = 1 ∧
      ensure_authenticated ⟨"t", 0⟩ 5 ⟨"u", 9⟩ 6 (Except.ok ⟨"v", 9⟩) =
        (⟨"u", 9⟩, [], none) :=
  ⟨(double_checked_refresh ⟨"t", 0⟩ 5 ⟨"t", 0⟩ 5
      (Except.ok ⟨"u", 9⟩)).1.mpr (by decide),
   (double_checked_refresh ⟨"t", 0⟩ 5 ⟨"u", 9⟩ 6
      (Except.ok ⟨"v", 9⟩)).2.2 (by decide) (by decide)⟩

/-- C4: on a successful exchange `get_bearer_token` computes
`expires_at = now + ttl` from the server-declared `expires_in`; it fails
with the missing-expiry error when the token response omits `expires_in`,
and with the expiry-overflow error when adding the TTL to the current
instant overflows the time representation; in both failure cases (as in the
transport-failure case) no `Credentials` value is produced. -/
theorem token_fetch_expiry (maxInstant now : Nat) (tok : String) (ttl : Nat)
    (err : Unit) :
    (get_bearer_token maxInstant now (Except.ok ⟨tok, some ttl⟩) =
        if now + ttl ≤ maxInstant then
          Except.ok ⟨tok, now + ttl⟩
        else Except.error FetchError.expiryOverflow) ∧
      get_bearer_token maxInstant now (Except.ok ⟨tok, none⟩) =
        Except.error FetchError.missingExpiry ∧
      get_bearer_token maxInstant now (Except.error err) =
        Except.error FetchError.exchangeFailed := by
  refine ⟨?_, rfl, rfl⟩
  by_cases h : now + ttl ≤ maxInstant <;>
    simp [get_bearer_token, instantCheckedAdd, h]

/-- C9: a failed refresh leaves the stored record completely unchanged —
`refresh_authentication` performs the network fetch first (line 194) and
mutates the record only after it succeeded, so a failing
`refresh_authentication`, `force_refresh_authentication` or
`ensure_authenticated` call returns the store exactly as it found it. -/
theorem failed_refresh_leaves_store (store storeR : Credentials)
    (now1 now2 : Nat) (e : FetchError)
    (h1 : storeR.expires_at < now1) (h2 : store.expires_at < now2) :
    refresh_authentication store (Except.error e) =
        (store, [Event.fetchTok], some e) ∧
      force_refresh_authentication store (Except.error e) =
        (store, [Event.fetchTok], some e) ∧
      ensure_authenticated storeR now1 store now2 (Except.error e) =
        (store, [Event.fetchTok], some e) := by
  refine ⟨rfl, rfl, ?_⟩
  simp [ensure_authenticated, ensureWriteSection, refresh_authentication,
    h1, h2]

/-- Witness for C9 at a concrete expired record and failing fetch. -/
theorem failed_refresh_leaves_store_witness :
    refresh_authentication ⟨"b", 1⟩ (Except.error FetchError.exchangeFailed) =
        (⟨"b", 1⟩, [Event.fetchTok], some FetchError.exchangeFailed) ∧
      force_refresh_authentication ⟨"b", 1⟩
          (Except.error FetchError.exchangeFailed) =
        (⟨"b", 1⟩, [Event.fetchTok], some FetchError.exchangeFailed) ∧
      ensure_authenticated ⟨"a", 0⟩ 5 ⟨"b", 1⟩ 5
          (Except.error FetchError.exchangeFailed) =
        (⟨"b", 1⟩, [Event.fetchTok], some FetchError.exchangeFailed) :=
  failed_refresh_leaves_store ⟨"b", 1⟩ ⟨"a", 0⟩ 5 5
    FetchError.exchangeFailed (by decide) (by decide)

/-- A serialized pass of write-lock holders over an unexpired record issues
no token exchange at all. -/
theorem writersPass_skip (fetchOf : Nat → Except FetchError Credentials) :
    ∀ (ts : List Nat) (store : Credentials) (fIdx : Nat),
      (∀ t ∈ ts, ¬ store.expires_at < t) →
      writersPass fetchOf ts store fIdx = (store, 0) := by
  intro ts
  induction ts with
  | nil => intro store fIdx _; rfl
  | cons t ts ih =>
    intro store fIdx h
    have ht := h t (by simp)
    have hrest := ih store fIdx (fun u hu => h u (by simp [hu]))
    simp [writersPass, ensureWriteSection, ht, fetchCount, hrest]

/-- C8: for N concurrent logical requests that start while the cached token
is expired, the number of token exchanges is bounded independently of N —
exactly 1: the callers serialize on the write lock, the winner (whose
re-check at instant `t0` still sees the expired record) performs the single
fetch, and every later caller, re-checking at an instant within the fetched
token's lifetime, observes the now-valid record and skips the fetch.  `ts`
is arbitrary, so the bound holds for every N = 1 + ts.length. -/
theorem single_flight_refresh (fetchOf : Nat → Except FetchError Credentials)
    (t0 : Nat) (ts : List Nat) (store0 c : Credentials)
    (hexp : store0.expires_at < t0) (hf : fetchOf 0 = Except.ok c)
    (hvalid : ∀ t ∈ ts, t ≤ c.expires_at) :
    (writersPass fetchOf (t0 :: ts) store0 0).2 = 1 := by
  have hrest := writersPass_skip fetchOf ts ⟨c.access_token, c.expires_at⟩ 1
    (fun t ht => by simpa [Nat.not_lt] using hvalid t ht)
  simp [writersPass, ensureWriteSection, hexp, refresh_authentication, hf,
    fetchCount, hrest]

/-- Witness for C8 with four concurrent callers. -/
theorem single_flight_refresh_witness :
    (writersPass (fun _ => Except.ok ⟨"N", 100⟩) (10 :: [11, 12, 13])
      ⟨"O", 5⟩ 0).2 = 1 :=
  single_flight_refresh (fun _ => Except.ok ⟨"N", 100⟩) 10 [11, 12, 13]
    ⟨"O", 5⟩ ⟨"N", 100⟩ (by decide) rfl (by decide)

/-- The first event of every (fuelled) retry-loop iteration is the send
attempt, whose header carries the token read from the store at that
moment. -/
theorem requestLoop_head (respOf : Nat → Nat)
    (fetchOf : Nat → Except FetchError Credentials)
    (fuel : Nat) (store : Credentials) (s i r : Nat) :
    (requestLoop respOf fetchOf (fuel + 1) store s i r).events.head? =
      some (Event.send ("Bearer " ++ store.access_token)) := by
  by_cases h200 : respOf s = 200
  · simp [requestLoop, h200]
  · by_cases h401 : respOf s = 401
    · by_cases hmax : r = MAX_RETRY_COUNT
      · simp [requestLoop, h200, h401, hmax]
      · cases hf : fetchOf i with
        | error e => simp [requestLoop, h200, h401, hmax, hf,
            force_refresh_authentication, refresh_authentication]
        | ok c => simp [requestLoop, h200, h401, hmax, hf,
            force_refresh_authentication, refresh_authentication]
    · simp [requestLoop, h200, h401]

/-- C10: the expiry test is a strict comparison with no safety margin: a
record is treated as expired only when `expires_at < now` at the moment of
the check, so `ensure_authenticated` skips the fetch exactly when
`now ≤ expires_at`; a record whose `expires_at` equals the current instant
is treated as valid (the call is a no-op), and a request issued at exactly
`expires_at` attaches that very token and sends it without any refresh
first. -/
theorem strict_expiry_check :
    (∀ (store : Credentials) (now : Nat)
        (fetch : Except FetchError Credentials),
      fetchCount (ensure_authenticated store now store now fetch).2.1 = 0 ↔
        now ≤ store.expires_at) ∧
      (∀ (store : Credentials) (fetch : Except FetchError Credentials),
        ensure_authenticated store store.expires_at store store.expires_at
          fetch = (store, [], none)) ∧
      (∀ (respOf : Nat → Nat)
          (fetchOf : Nat → Except FetchError Credentials)
          (store0 : Credentials),
        (request respOf fetchOf store0 store0.expires_at).events.head? =
          some (Event.send ("Bearer " ++ store0.access_token))) := by
  refine ⟨?_, ?_, ?_⟩
  · intro store now fetch
    by_cases h : store.expires_at < now <;>
      cases fetch <;>
      simp [ensure_authenticated, ensureWriteSection, refresh_authentication,
        h, fetchCount, Nat.not_lt] <;>
      omega
  · intro store fetch
    simp [ensure_authenticated]
  · intro respOf fetchOf store0
    have h := requestLoop_head respOf fetchOf MAX_RETRY_COUNT store0 0 0 0
    simp [request, ensure_authenticated, fetchCount, h]
